import Mathlib

/-!
# ScheduleTracking — carrier-normalization core, shallow embedding

A shallow embedding of the carrier-normalization core of the
ScheduleTracking service (TypeScript), together with theorems settling the
frozen claims about it.

Modelling conventions:

* Optional / possibly-absent TypeScript values become `Option`.
* JavaScript truthiness of a string-valued expression (`undefined`, `null`
  and `""` are falsy) is modelled by `tb : Option String → Bool`.
* The process environment becomes an association list `Env`;
  `process.env[k]` becomes `envVar env k`.
* Fallible code returns `Except String α`; for code whose interesting
  behaviour is "which error is raised before the outbound HTTP request is
  attempted", the embedding models the pre-network phase and `.ok ()`
  marks the point where the network call is issued.
* `Date.now()` is modelled by an explicit `now : Nat` argument threaded to
  the functions that read the clock.
* Calendar dates that the code normalizes with `setHours(0,0,0,0)` and
  compares by day are modelled as integer day numbers.
-/

namespace ScheduleTracking

/-- JavaScript truthiness of an optional string: absent (`undefined`) and
the empty string are falsy, every other string is truthy. -/
def tb : Option String → Bool
  | none => false
  | some s => s != ""

/-- JavaScript `a || b` on optional strings (empty strings fall through). -/
def jsOr (a b : Option String) : Option String :=
  if tb a then a else b

/-- JavaScript `s || d` on a required string (`""` falls through to `d`). -/
def jsOrStr (s d : String) : String :=
  if s != "" then s else d

/-- JavaScript `o || d` producing a string default. -/
def jsOrDefault (o : Option String) (d : String) : String :=
  match o with
  | some s => if s != "" then s else d
  | none => d

/-! ## Canonical data model (src/domain/models/schedule.ts) -/

/-- DCSA arrival/departure timestamp. -/
structure Timestamp where
  eventTypeCode : String
  eventClassifierCode : String
  eventDateTime : String
deriving DecidableEq, Repr

/-- DCSA cut-off time. -/
structure CutOffTime where
  cutOffDateTimeCode : String
  cutOffDateTime : String
deriving DecidableEq, Repr

/-- Transport-call location (`TransportCallLocation`); the structured
`address` object, which every mapper only passes through opaquely, is
modelled as an opaque optional payload. -/
structure TransportCallLocation where
  locationName : Option String := none
  UNLocationCode : Option String := none
  address : Option String := none
  facilitySMDGCode : Option String := none
deriving DecidableEq, Repr

/-- DCSA transport call. -/
structure TransportCall where
  transportCallReference : String
  portVisitReference : Option String := none
  carrierImportVoyageNumber : String
  carrierExportVoyageNumber : Option String := none
  universalImportVoyageReference : Option String := none
  universalExportVoyageReference : Option String := none
  location : TransportCallLocation
  timestamps : List Timestamp
  cutOffTimes : Option (List CutOffTime) := none
deriving DecidableEq, Repr

/-- Vessel identity (src/domain/models/common.ts `Vessel`). -/
structure Vessel where
  vesselIMONumber : String
  name : Option String := none
  MMSINumber : Option String := none
  flag : Option String := none
  callSign : Option String := none
  operatorCarrierCode : Option String := none
  operatorCarrierCodeListProvider : Option String := none
deriving DecidableEq, Repr

/-- DCSA vessel schedule. -/
structure VesselSchedule where
  vessel : Option Vessel := none
  isDummyVessel : Bool
  transportCalls : Option (List TransportCall) := none
deriving DecidableEq, Repr

/-- DCSA service schedule. -/
structure ServiceSchedule where
  carrierServiceCode : String
  carrierServiceName : String
  universalServiceReference : Option String := none
  vesselSchedules : List VesselSchedule
deriving DecidableEq, Repr

/-! ## CMA CGM Sub-API selection (CMACGMAdapter.getSchedule) -/

/-- The flat parameter bag as read by `CMACGMAdapter.getSchedule`; the
`string | string[]` query parameters are modelled by their presence as
strings. `from` is a Lean keyword, hence `fromDate`/`toDate` for the
source's `from`/`to`. -/
structure CMACGMParams where
  placeOfLoading : Option String := none
  placeOfDischarge : Option String := none
  unLocodePlaceOfLoading : Option String := none
  unLocodePlaceOfDischarge : Option String := none
  voyageCode : Option String := none
  carrierVoyageNumber : Option String := none
  vesselIMO : Option String := none
  vesselIMONumber : Option String := none
  fromDate : Option String := none
  toDate : Option String := none
  startDate : Option String := none
  endDate : Option String := none
  portCode : Option String := none
  countryCode : Option String := none
  serviceCode : Option String := none
  carrierServiceCode : Option String := none
  lineCode : Option String := none
  zoneFromCode : Option String := none
  zoneToCode : Option String := none
deriving Repr

/-- The four CMA CGM schedule Sub-APIs. -/
inductive CMASubApi where
  | route
  | proforma
  | voyage
  | commercial
deriving DecidableEq, Repr

/-- Priority-1 trigger: a loading location and a discharge location are both
present (either vendor-code or UN/LOCODE form for each side). -/
def cmaRouteTrigger (p : CMACGMParams) : Bool :=
  (tb p.placeOfLoading || tb p.unLocodePlaceOfLoading) &&
    (tb p.placeOfDischarge || tb p.unLocodePlaceOfDischarge)

/-- Priority-2 trigger: `serviceCode || lineCode || (zoneFromCode && zoneToCode)`,
where `serviceCode` is `(params as any).serviceCode || params.carrierServiceCode`. -/
def cmaProformaTrigger (p : CMACGMParams) : Bool :=
  tb (jsOr p.serviceCode p.carrierServiceCode) || tb p.lineCode ||
    (tb p.zoneFromCode && tb p.zoneToCode)

/-- Priority-3 trigger: `voyageCode || vesselIMO || (from && to) || portCode || countryCode`,
with the `||`-fallbacks of the source applied to each derived value. -/
def cmaVoyageTrigger (p : CMACGMParams) : Bool :=
  tb (jsOr p.voyageCode p.carrierVoyageNumber) ||
    tb (jsOr p.vesselIMO p.vesselIMONumber) ||
    (tb (jsOr p.fromDate p.startDate) && tb (jsOr p.toDate p.endDate)) ||
    tb p.portCode || tb p.countryCode

/-- `CMACGMAdapter.getSchedule`: which Sub-API adapter answers the query
(the delegation target; the delegated call itself is outside this model). -/
def selectCMACGMSubApi (p : CMACGMParams) : CMASubApi :=
  if cmaRouteTrigger p then .route
  else if cmaProformaTrigger p then .proforma
  else if cmaVoyageTrigger p then .voyage
  else .commercial

/-! ## Maersk Vessel Schedule date guard (MaerskScheduleAdapter.getSchedule) -/

/-- Parameters of the Maersk Vessel Schedule date guard, with dates as day
numbers (the source normalizes both `today` and the parsed dates to
midnight before comparing). -/
structure MaerskDateParams where
  startDate : Option Int := none
  endDate : Option Int := none
deriving Repr

/-- Pre-network phase of `MaerskScheduleAdapter.getSchedule`: the endpoint
check and the ±90/180-day window validation of `startDate` and `endDate`.
`.ok ()` is the point where the outbound HTTP request is issued. -/
def maerskSchedulePre (endpointConfigured : Bool) (today : Int)
    (p : MaerskDateParams) : Except String Unit :=
  if !endpointConfigured then
    .error "Schedule API endpoint not configured for Maersk"
  else
    match p.startDate with
    | some s =>
      if s < today - 90 || s > today + 180 then
        .error "Maersk Vessel Schedule API: Start Date must be within 90 days past and 180 days future from today."
      else
        match p.endDate with
        | some e =>
          if e < today - 90 || e > today + 180 then
            .error "Maersk Vessel Schedule API: End Date must be within 90 days past and 180 days future from today."
          else .ok ()
        | none => .ok ()
    | none =>
      match p.endDate with
      | some e =>
        if e < today - 90 || e > today + 180 then
          .error "Maersk Vessel Schedule API: End Date must be within 90 days past and 180 days future from today."
        else .ok ()
      | none => .ok ()

/-! ## HMM Sub-API selection and Vessel Schedule guard
(HMMAdapter.getSchedule, HMMScheduleAdapter.getSchedule) -/

/-- The parameter fields read by `HMMAdapter.getSchedule`. -/
structure HMMParams where
  carrierVoyageNumber : Option String := none
  fromLocationCode : Option String := none
  toLocationCode : Option String := none
  periodDate : Option String := none
  UNLocationCode : Option String := none
  startDate : Option String := none
  endDate : Option String := none
deriving Repr

/-- The three HMM schedule Sub-APIs. -/
inductive HMMSubApi where
  | vessel
  | ptp
  | port
deriving DecidableEq, Repr

/-- `HMMAdapter.getSchedule`: Sub-API selection. The final branch is the
source's fallback to the Vessel Schedule adapter. -/
def selectHMMSubApi (p : HMMParams) : HMMSubApi :=
  if tb p.carrierVoyageNumber then .vessel
  else if tb p.fromLocationCode && tb p.toLocationCode && tb p.periodDate then .ptp
  else if tb p.UNLocationCode && tb p.startDate && tb p.endDate then .port
  else .vessel

/-- Pre-network phase of `HMMScheduleAdapter.getSchedule` (the Vessel
Schedule adapter): endpoint check, then the required `carrierVoyageNumber`
(vvdCode) check. `.ok ()` is the point where the POST request is issued. -/
def hmmVesselSchedulePre (endpointConfigured : Bool) (p : HMMParams) :
    Except String Unit :=
  if !endpointConfigured then
    .error "Schedule API endpoint not configured for HMM"
  else if !(tb p.carrierVoyageNumber) then
    .error "HMM Schedule API requires carrierVoyageNumber (vvdCode) parameter"
  else .ok ()

/-! ## ZIM schedule guard (ZIMAdapter.getSchedule, ZIMScheduleAdapter.getSchedule) -/

/-- The parameter fields relevant to `ZIMScheduleAdapter.getSchedule`.
`originCode` and `destCode` are the extended origin/destination parameters
the source's comments speak about; the adapter never reads them. -/
structure ZIMParams where
  originCode : Option String := none
  destCode : Option String := none
  UNLocationCode : Option String := none
  startDate : Option String := none
  endDate : Option String := none
deriving Repr

/-- Pre-network phase of `ZIMScheduleAdapter.getSchedule`: endpoint check,
then the guard that throws when a (single) `UNLocationCode` is supplied.
`.ok ()` is the point where the outbound GET request is issued. -/
def zimSchedulePre (endpointConfigured : Bool) (p : ZIMParams) :
    Except String Unit :=
  if !endpointConfigured then
    .error "Schedule API endpoint not configured for ZIM"
  else if tb p.UNLocationCode then
    .error "ZIM Schedule API requires both origin and destination locations. Please provide originCode and destCode via extended query parameters."
  else .ok ()

/-- `ZIMAdapter.getSchedule` delegates unconditionally to the single
Point-to-Point schedule adapter. -/
def zimAdapterPre (endpointConfigured : Bool) (p : ZIMParams) :
    Except String Unit :=
  zimSchedulePre endpointConfigured p

/-! ## Credential Manager (src/adapters/http/AuthManager.ts) -/

/-- The process environment, `process.env`. -/
abbrev Env := List (String × String)

/-- `AuthManager.getEnvVar` / `process.env[k]`. -/
def envVar (env : Env) (k : String) : Option String :=
  (env.find? (fun kv => kv.1 == k)).map (fun kv => kv.2)

/-- Reading an env var and testing it with JS truthiness
(`const v = this.getEnvVar(n); if (v) ...`). -/
def envTruthy (env : Env) (n : String) : Option String :=
  match envVar env n with
  | some v => if v != "" then some v else none
  | none => none

/-- The `config.auth` record of a carrier configuration. The
endpoint-keyed maps (`primaryKeys`, `secondaryKeys`, `apiKeys`,
`headerNames`) may themselves be absent, hence `Option` of an association
list. -/
structure AuthCfg where
  primaryKeys : Option (List (String × String)) := none
  secondaryKeys : Option (List (String × String)) := none
  apiKeys : Option (List (String × String)) := none
  headerName : Option String := none
  headerNames : Option (List (String × String)) := none
deriving Repr

/-- `m?.[k]` on an optional endpoint-keyed map. -/
def mapLookup (m : Option (List (String × String))) (k : String) :
    Option String :=
  match m with
  | none => none
  | some l => (l.find? (fun kv => kv.1 == k)).map (fun kv => kv.2)

/-- One step of `AuthManager.getApiKey`: if the env-var name is configured
(truthy), read it from the environment and keep it if truthy. -/
def tryEnvKey (env : Env) (varName : Option String) : Option String :=
  match varName with
  | some n => if n != "" then envTruthy env n else none
  | none => none

/-- `AuthManager.getApiKey`: endpoint-specific primary key, then
endpoint-specific secondary key, then endpoint-specific generic key, then
the carrier-wide default `<CARRIER>_API_KEY`; on total failure an error is
produced (enumerating the endpoint-specific env-var names when any are
configured, else naming the default). -/
def getApiKey (env : Env) (carrierCode : String) (cfg : AuthCfg)
    (endpointType : Option String) : Except String String :=
  let primaryName : Option String :=
    match endpointType with
    | some ep => mapLookup cfg.primaryKeys ep
    | none => none
  let secondaryName : Option String :=
    match endpointType with
    | some ep => mapLookup cfg.secondaryKeys ep
    | none => none
  let genericName : Option String :=
    match endpointType with
    | some ep => mapLookup cfg.apiKeys ep
    | none => none
  match tryEnvKey env primaryName with
  | some v => .ok v
  | none =>
    match tryEnvKey env secondaryName with
    | some v => .ok v
    | none =>
      match tryEnvKey env genericName with
      | some v => .ok v
      | none =>
        match envTruthy env (carrierCode ++ "_API_KEY") with
        | some v => .ok v
        | none =>
          match endpointType with
          | some ep =>
            let msgs : List String :=
              (if tb (mapLookup cfg.primaryKeys ep) then
                [(mapLookup cfg.primaryKeys ep).getD "" ++ " (Primary Key)"]
               else []) ++
              (if tb (mapLookup cfg.secondaryKeys ep) then
                [(mapLookup cfg.secondaryKeys ep).getD "" ++ " (Secondary Key)"]
               else []) ++
              (if tb (mapLookup cfg.apiKeys ep) then
                [(mapLookup cfg.apiKeys ep).getD ""]
               else [])
            if msgs.length > 0 then
              .error ("API Key not found for carrier: " ++ carrierCode ++
                ", endpoint: " ++ ep ++ ". Please set one of: " ++
                String.intercalate ", " msgs)
            else
              .error ("API Key not found for carrier: " ++ carrierCode ++
                ". Please set " ++ carrierCode ++ "_API_KEY environment variable.")
          | none =>
            .error ("API Key not found for carrier: " ++ carrierCode ++
              ". Please set " ++ carrierCode ++ "_API_KEY environment variable.")

/-- The env-var names `getApiKey` reads (in order) when nothing resolves:
the configured (truthy) endpoint-specific names, then the carrier-wide
default. -/
def apiKeyEnvVarsTried (carrierCode : String) (cfg : AuthCfg)
    (endpointType : Option String) : List String :=
  (match endpointType with
   | some ep =>
     (match mapLookup cfg.primaryKeys ep with
      | some n => if n != "" then [n] else []
      | none => []) ++
     (match mapLookup cfg.secondaryKeys ep with
      | some n => if n != "" then [n] else []
      | none => []) ++
     (match mapLookup cfg.apiKeys ep with
      | some n => if n != "" then [n] else []
      | none => [])
   | none => []) ++ [carrierCode ++ "_API_KEY"]

/-- Whether `pat` occurs as a contiguous run of `hay`. -/
def containsSubList (pat : List Char) : List Char → Bool
  | [] => pat.isEmpty
  | c :: cs => pat.isPrefixOf (c :: cs) || containsSubList pat cs

/-- Substring occurrence test on strings. -/
def strContains (hay pat : String) : Bool :=
  containsSubList pat.data hay.data

/-- The supplementary API-key env-var of the OAuth2 branch:
`endpointType && config.auth.apiKeys[endpointType] ? that
: config.auth.apiKeys.schedule || config.auth.apiKeys.tracking`. -/
def oauth2SupplementaryEnvVar (cfg : AuthCfg) (endpointType : Option String) :
    Option String :=
  let epSpecific : Option String :=
    match endpointType with
    | some ep => mapLookup cfg.apiKeys ep
    | none => none
  if tb epSpecific then epSpecific
  else jsOr (mapLookup cfg.apiKeys "schedule") (mapLookup cfg.apiKeys "tracking")

/-- The OAuth2 branch of `AuthManager.getAuthHeaders` after the bearer
token has been obtained (the token exchange itself is a network
interaction outside this model): the `Authorization` header, plus the
supplementary API-key header when the carrier configures one and its env
var resolves; an unresolved supplementary key is silently skipped — this
branch has no failure path. -/
def getAuthHeadersOAuth2 (env : Env) (cfg : AuthCfg)
    (endpointType : Option String) (tokenType token : String) :
    List (String × String) :=
  let base : List (String × String) :=
    [("Authorization", tokenType ++ " " ++ token)]
  if tb cfg.headerName && cfg.apiKeys.isSome then
    match oauth2SupplementaryEnvVar cfg endpointType with
    | some n =>
      if n != "" then
        match envTruthy env n with
        | some v => base ++ [(cfg.headerName.getD "", v)]
        | none => base
      else base
    | none => base
  else base

/-- Modelled from the spec: the multi-tier API-key resolution order —
endpoint-specific primary, then endpoint-specific secondary, then
endpoint-specific generic, then the carrier-wide default env var,
returning the first one set (truthy) in the environment. Used as the
specification-side definition against which `getApiKey` is compared. -/
def resolveApiKeyOrder (env : Env) (carrierCode : String) (cfg : AuthCfg)
    (endpointType : Option String) : Option String :=
  (apiKeyEnvVarsTried carrierCode cfg endpointType).findSome? (envTruthy env)

/-! ## Fan-Out Aggregator (ScheduleController.getSchedules /
TrackingController.getTracking) -/

/-- The settled outcome of one carrier's call: the inner `try`/`catch`
around `adapter.getSchedule` converts any thrown error into a
`success: false` record, so each carrier independently yields either its
records or its error message. -/
structure CarrierOutcome (α : Type) where
  carrier : String
  carrierName : String
  result : Except String (List α)
deriving Repr

/-- The aggregator's response: the 503 collective-failure body, or the
200 body with data, meta counters and the per-carrier error array. -/
inductive AggResponse (α : Type) where
  | allFailed (errors : List (String × String))
  | success (data : List (α × String)) (total carriersQueried carriersSucceeded carriersFailed : Nat)
      (errors : List (String × String))
deriving Repr

/-- The result-processing loop: successful carriers contribute their
records annotated with the carrier code; failed carriers contribute a
`(carrier, error)` record. -/
def processOutcomes {α : Type} (outcomes : List (CarrierOutcome α)) :
    List (α × String) × List (String × String) :=
  outcomes.foldl
    (fun acc o =>
      match o.result with
      | .ok records => (acc.1 ++ records.map (fun r => (r, o.carrier)), acc.2)
      | .error e => (acc.1, acc.2 ++ [(o.carrier, e)]))
    ([], [])

/-- The aggregator's final decision: the 503 collective failure is
returned when `successfulResults.length === 0 && errors.length > 0`
(zero merged records and at least one error), else the 200 success body
with the source's meta counters. -/
def aggregate {α : Type} (outcomes : List (CarrierOutcome α)) : AggResponse α :=
  let p := processOutcomes outcomes
  if p.1.length == 0 && decide (p.2.length > 0) then .allFailed p.2
  else
    .success p.1 p.1.length outcomes.length
      (outcomes.length - p.2.length) p.2.length p.2

/-! ## Shared mapper plumbing -/

/-- Insertion-order grouping, the JS `Map`-based grouping idiom
(`if (!map.has(k)) map.set(k, []); map.get(k).push(item)` followed by
iteration in insertion order). -/
def groupByKey {β : Type} (key : β → String) (items : List β) :
    List (String × List β) :=
  items.foldl
    (fun acc it =>
      let k := key it
      if acc.any (fun g => g.1 == k) then
        acc.map (fun g => if g.1 == k then (g.1, g.2 ++ [it]) else g)
      else acc ++ [(k, [it])])
    []

/-- Stable insertion of `x` after all elements whose key is ≤ its key. -/
def insertByKey {β : Type} (key : β → String) (x : β) :
    List β → List β
  | [] => [x]
  | y :: ys =>
    if key x < key y then x :: y :: ys else y :: insertByKey key x ys

/-- Stable sort by a string key, the effect of JS
`array.sort((a, b) => keyA.localeCompare(keyB))` (modern `Array.sort` is
stable; the default `localeCompare` is modelled as lexicographic
comparison, which agrees with it on the digit strings being sorted). -/
def stableSortByKey {β : Type} (key : β → String) (l : List β) : List β :=
  l.foldl (fun acc x => insertByKey key x acc) []

/-- `s.substring a b` on ASCII strings. -/
def strSub (s : String) (a b : Nat) : String :=
  String.mk ((s.data.drop a).take (b - a))

/-- `s.includes(c)` for a single character (kernel-reducible form of
`String.contains`). -/
def strHasChar (s : String) (c : Char) : Bool :=
  s.data.contains c

/-- `s.endsWith(c)` for a single character (kernel-reducible form of
`String.endsWith`). -/
def endsWithChar (s : String) (c : Char) : Bool :=
  s.data.getLast? == some c

/-- `s.toUpperCase()` (kernel-reducible form of `String.toUpper`). -/
def strUpper (s : String) : String :=
  String.mk (s.data.map Char.toUpper)

/-! ## HMM Schedule Mapper (mappers/scheduleMapper.ts, `mapHMMScheduleToDCSA`) -/

namespace HMMMapper

/-- `item.arrival` of an HMM schedule item. -/
structure HMMArrival where
  arrivalDate : Option String := none
  arrivalTime : Option String := none
  arrivalStatusCode : Option String := none
deriving DecidableEq, Repr

/-- `item.departure` of an HMM schedule item. -/
structure HMMDeparture where
  departureDate : Option String := none
  departureTime : Option String := none
  departureStatusCode : Option String := none
deriving DecidableEq, Repr

/-- An HMM vessel-schedule line item (the fields the mapper reads; the
unread `longTermDeparture`/`berthing` blocks are omitted). -/
structure HMMScheduleItem where
  vvdCode : Option String := none
  portCode : Option String := none
  portName : Option String := none
  tmnlCode : Option String := none
  tmnlName : Option String := none
  vesselName : Option String := none
  scheduleDirectionCode : Option String := none
  arrival : Option HMMArrival := none
  departure : Option HMMDeparture := none
deriving DecidableEq, Repr

/-- The HMM schedule API response envelope. -/
structure HMMScheduleResponse where
  resultData : Option (List HMMScheduleItem) := none
  resultCode : Option String := none
  resultMessage : Option String := none
deriving DecidableEq, Repr

/-- `convertHMMDateTime`: `"20210817"`+`"2100"` becomes
`"2021-08-17T21:00:00Z"`; a date not exactly 8 characters or a time not
exactly 4 characters raises. -/
def convertHMMDateTime (dateStr timeStr : String) : Except String String :=
  if dateStr == "" || dateStr.length != 8 then
    .error ("Invalid date format: " ++ dateStr ++ ". Expected YYYYMMDD")
  else if timeStr == "" || timeStr.length != 4 then
    .error ("Invalid time format: " ++ timeStr ++ ". Expected HHMM")
  else
    let year := strSub dateStr 0 4
    let month := strSub dateStr 4 6
    let day := strSub dateStr 6 8
    let hour := strSub timeStr 0 2
    let minute := strSub timeStr 2 4
    .ok (year ++ "-" ++ month ++ "-" ++ day ++ "T" ++ hour ++ ":" ++ minute ++ ":00Z")

/-- `mapStatusCodeToClassifier`: HMM status-code letters to the DCSA
event classifier, defaulting to `EST`. -/
def mapStatusCodeToClassifier (statusCode : Option String) : String :=
  match statusCode with
  | none => "EST"
  | some sc =>
    if sc == "" then "EST"
    else
      let code := strUpper sc
      if code == "A" || code == "ACTUAL" then "ACT"
      else if code == "E" || code == "ESTIMATED" then "EST"
      else if code == "L" || code == "LONG-TERM" || code == "PLANNED" then "PLN"
      else "EST"

/-- `extractServiceCodeFromVVD`: the leading run of capital letters of the
VVD code (`/^([A-Z]+)/`), else its first ≤ 11 characters. -/
def extractServiceCodeFromVVD (vvdCode : String) : String :=
  let letters := vvdCode.data.takeWhile (fun c => 'A' ≤ c && c ≤ 'Z')
  if letters.length > 0 then String.mk letters
  else strSub vvdCode 0 (min 11 vvdCode.length)

/-- `generateTransportCallReference` of the HMM schedule mapper: the
composite key suffixed with `Date.now()`. -/
def generateTransportCallReference (vvdCode portCode : String) (now : Nat) :
    String :=
  "HMM-" ++ vvdCode ++ "-" ++ portCode ++ "-" ++ toString now

/-- The sort key of the mapper's per-vessel item sort:
`a.arrival?.arrivalDate || a.departure?.departureDate || ''`. -/
def hmmSortDate (a : HMMScheduleItem) : String :=
  jsOrDefault (jsOr (a.arrival.bind (fun x => x.arrivalDate))
    (a.departure.bind (fun x => x.departureDate))) ""

/-- The timestamps built for one item: an `ARRI` entry when both arrival
date and time are present, then a `DEPA` entry when both departure date
and time are present; `convertHMMDateTime` errors propagate. -/
def itemTimestamps (item : HMMScheduleItem) : Except String (List Timestamp) :=
  let arriPart : Except String (List Timestamp) :=
    match item.arrival with
    | some a =>
      if tb a.arrivalDate && tb a.arrivalTime then
        match convertHMMDateTime (a.arrivalDate.getD "") (a.arrivalTime.getD "") with
        | .ok dt =>
          .ok [{ eventTypeCode := "ARRI",
                 eventClassifierCode := mapStatusCodeToClassifier a.arrivalStatusCode,
                 eventDateTime := dt }]
        | .error e => .error e
      else .ok []
    | none => .ok []
  match arriPart with
  | .error e => .error e
  | .ok arri =>
    match item.departure with
    | some d =>
      if tb d.departureDate && tb d.departureTime then
        match convertHMMDateTime (d.departureDate.getD "") (d.departureTime.getD "") with
        | .ok dt =>
          .ok (arri ++ [{ eventTypeCode := "DEPA",
                          eventClassifierCode := mapStatusCodeToClassifier d.departureStatusCode,
                          eventDateTime := dt }])
        | .error e => .error e
      else .ok arri
    | none => .ok arri

/-- The transport-call loop over one vessel's (sorted) items: items with no
timestamps are skipped, the rest become transport calls keyed by the
voyage code and port code. -/
def buildTransportCalls (vvdCode : String) (now : Nat) :
    List HMMScheduleItem → Except String (List TransportCall)
  | [] => .ok []
  | item :: rest =>
    match itemTimestamps item with
    | .error e => .error e
    | .ok timestamps =>
      match buildTransportCalls vvdCode now rest with
      | .error e => .error e
      | .ok tail =>
        if timestamps.length == 0 then .ok tail
        else
          .ok ({ transportCallReference :=
                   generateTransportCallReference vvdCode (jsOrDefault item.portCode "") now,
                 carrierImportVoyageNumber := vvdCode,
                 carrierExportVoyageNumber := some vvdCode,
                 location := { UNLocationCode := item.portCode,
                               locationName := item.portName,
                               facilitySMDGCode := item.tmnlCode },
                 timestamps := timestamps } :: tail)

/-- One vessel group becomes a `VesselSchedule`; a vessel named `UNKNOWN`
is the dummy-vessel placeholder, and an empty transport-call list is
stored as `undefined`. -/
def buildVesselSchedule (vesselName : String) (transportCalls : List TransportCall) :
    VesselSchedule :=
  { isDummyVessel := vesselName == "UNKNOWN",
    vessel :=
      if vesselName != "UNKNOWN" then
        some { vesselIMONumber := "0000000", name := some vesselName }
      else none,
    transportCalls :=
      if transportCalls.length > 0 then some transportCalls else none }

/-- The per-voyage vessel loop: groups already formed, each sorted by
`hmmSortDate` then turned into transport calls. -/
def buildVesselScheduleList (vvdCode : String) (now : Nat) :
    List (String × List HMMScheduleItem) → Except String (List VesselSchedule)
  | [] => .ok []
  | (vesselName, vesselItems) :: rest =>
    match buildTransportCalls vvdCode now (stableSortByKey hmmSortDate vesselItems) with
    | .error e => .error e
    | .ok transportCalls =>
      match buildVesselScheduleList vvdCode now rest with
      | .error e => .error e
      | .ok tail => .ok (buildVesselSchedule vesselName transportCalls :: tail)

/-- The per-voyage service loop: every voyage group becomes a
`ServiceSchedule` (no filtering of groups whose vessel schedules all carry
zero transport calls). -/
def buildServiceSchedules (carrierServiceCode : Option String) (now : Nat) :
    List (String × List HMMScheduleItem) → Except String (List ServiceSchedule)
  | [] => .ok []
  | (vvdCode, items) :: rest =>
    let serviceCode := jsOrDefault carrierServiceCode (extractServiceCodeFromVVD vvdCode)
    match buildVesselScheduleList vvdCode now
        (groupByKey (fun it => jsOrDefault it.vesselName "UNKNOWN") items) with
    | .error e => .error e
    | .ok vesselSchedules =>
      match buildServiceSchedules carrierServiceCode now rest with
      | .error e => .error e
      | .ok tail =>
        .ok ({ carrierServiceCode := serviceCode,
               carrierServiceName := serviceCode,
               vesselSchedules := vesselSchedules } :: tail)

/-- `mapHMMScheduleToDCSA`: group items by `vvdCode` into service
schedules, within each by vessel name into vessel schedules. `now` is the
`Date.now()` reading used for synthesized transport-call references. -/
def mapHMMScheduleToDCSA (resp : HMMScheduleResponse)
    (carrierServiceCode : Option String) (now : Nat) :
    Except String (List ServiceSchedule) :=
  match resp.resultData with
  | none => .ok []
  | some items =>
    if items.length == 0 then .ok []
    else
      buildServiceSchedules carrierServiceCode now
        (groupByKey (fun it => jsOrDefault it.vvdCode "UNKNOWN") items)

end HMMMapper

/-! ## HMM PTP Schedule Mapper (mappers/ptpScheduleMapper.ts, datetime
normalization) -/

namespace HMMPTPMapper

/-- `normalizeDateTime` of the HMM PTP mapper. A string containing `T` is
passed through, with `Z` appended unless the string already ends with
`Z`; a `T`-less string goes through `new Date(...)`, modelled by the
environment-dependent `jsDateParse` (returning the `toISOString` result,
or `none` when the parse yields `NaN`, which the source turns into a hard
error). -/
def normalizeDateTime (jsDateParse : String → Option String)
    (dateTime : String) : Except String String :=
  if dateTime == "" then .error "Invalid datetime string"
  else if strHasChar dateTime 'T' then
    .ok (if endsWithChar dateTime 'Z' then dateTime else dateTime ++ "Z")
  else
    match jsDateParse dateTime with
    | some iso => .ok iso
    | none => .error ("Invalid datetime format: " ++ dateTime)

end HMMPTPMapper

/-- A digit character. -/
def isDigitChar (c : Char) : Bool :=
  '0' ≤ c && c ≤ '9'

/-- Modelled from the spec's words: the datetime already carries an
explicit offset — it ends with `Z` or with a numeric `±HH:MM` offset.
Used only to state what the spec asserts about offset handling. -/
def endsWithUtcOffset (s : String) : Bool :=
  endsWithChar s 'Z' ||
    (match (s.data.reverse.take 6).reverse with
     | [sgn, h1, h2, col, m1, m2] =>
       (sgn == '+' || sgn == '-') && isDigitChar h1 && isDigitChar h2 &&
         col == ':' && isDigitChar m1 && isDigitChar m2
     | _ => false)

/-! ## Maersk Point-to-Point Mapper
(MaerskPointToPointAdapter.mapPointToPointToDCSA) -/

namespace MaerskPTP

/-- A `servicePartners` entry of a leg's transport. -/
structure ServicePartner where
  carrierCode : Option String := none
  carrierServiceName : Option String := none
  carrierServiceCode : Option String := none
  carrierImportVoyageNumber : Option String := none
  carrierExportVoyageNumber : Option String := none
deriving DecidableEq, Repr

/-- A vessel or barge of a leg's transport (required fields per the DCSA
response type). -/
structure PtpVessel where
  vesselIMONumber : String
  name : String
  MMSINumber : Option String := none
  flag : Option String := none
  callSign : Option String := none
  operatorCarrierCode : Option String := none
  operatorCarrierCodeListProvider : Option String := none
deriving DecidableEq, Repr

/-- The optional `facility` of a location. -/
structure PtpFacility where
  facilityCode : String
  facilityCodeListProvider : String
deriving DecidableEq, Repr

/-- A DCSA location; the structured `address` is opaque to the mapper and
modelled as an opaque optional payload. -/
structure PtpLocation where
  locationName : Option String := none
  UNLocationCode : Option String := none
  address : Option String := none
  facility : Option PtpFacility := none
deriving DecidableEq, Repr

/-- A place/time triple (`placeOfReceipt`, `placeOfDelivery`, and each
leg's `departure`/`arrival`). -/
structure PtpStop where
  facilityTypeCode : String
  location : PtpLocation
  dateTime : String
deriving DecidableEq, Repr

/-- A leg's `transport`. -/
structure PtpTransport where
  modeOfTransport : String
  portVisitReference : Option String := none
  transportCallReference : Option String := none
  servicePartners : Option (List ServicePartner) := none
  universalServiceReference : Option String := none
  universalExportVoyageReference : Option String := none
  universalImportVoyageReference : Option String := none
  vessel : Option PtpVessel := none
  barge : Option PtpVessel := none
deriving DecidableEq, Repr

/-- One leg of a point-to-point route. -/
structure PtpLeg where
  sequenceNumber : Int
  transport : PtpTransport
  departure : PtpStop
  arrival : PtpStop
deriving DecidableEq, Repr

/-- One point-to-point route solution. -/
structure PtpRoute where
  placeOfReceipt : PtpStop
  placeOfDelivery : PtpStop
  receiptTypeAtOrigin : Option String := none
  deliveryTypeAtDestination : Option String := none
  cutOffTimes : Option (List CutOffTime) := none
  solutionNumber : Option Int := none
  routingReference : Option String := none
  transitTime : Option Int := none
  legs : List PtpLeg
deriving DecidableEq, Repr

/-- The route metadata the mapper preserves on the primary service entry
(`pointToPointRoutes`). -/
structure PtpRouteMeta where
  placeOfReceipt : PtpStop
  placeOfDelivery : PtpStop
  receiptTypeAtOrigin : Option String := none
  deliveryTypeAtDestination : Option String := none
  cutOffTimes : Option (List CutOffTime) := none
  solutionNumber : Option Int := none
  routingReference : Option String := none
  transitTime : Option Int := none
deriving DecidableEq, Repr

/-- One `serviceMap` entry: the service schedule under construction plus
its preserved `pointToPointRoutes`. -/
structure PtpEntry where
  schedule : ServiceSchedule
  pointToPointRoutes : List PtpRouteMeta
deriving DecidableEq, Repr

/-- `transport.vessel || transport.barge` (object truthiness = presence). -/
def legVessel (t : PtpTransport) : Option PtpVessel :=
  match t.vessel with
  | some v => some v
  | none => t.barge

/-- `transport.servicePartners?.[0]`. -/
def firstServicePartner (t : PtpTransport) : Option ServicePartner :=
  match t.servicePartners with
  | some (sp :: _) => some sp
  | _ => none

/-- `route.solutionNumber || 'unknown'` as interpolated into the
synthesized reference (JS number truthiness: `0` is falsy). -/
def solutionNumberStr (sol : Option Int) : String :=
  match sol with
  | some n => if n != 0 then toString n else "unknown"
  | none => "unknown"

/-- The transport call built from one VESSEL/BARGE leg. -/
def legTransportCall (route : PtpRoute) (leg : PtpLeg) : TransportCall :=
  let transport := leg.transport
  let servicePartner := firstServicePartner transport
  { transportCallReference :=
      jsOrDefault transport.transportCallReference
        ("ptp-" ++ solutionNumberStr route.solutionNumber ++ "-" ++
          toString leg.sequenceNumber),
    portVisitReference := transport.portVisitReference,
    carrierImportVoyageNumber :=
      jsOrDefault (servicePartner.bind (fun sp => sp.carrierImportVoyageNumber)) "UNKNOWN",
    carrierExportVoyageNumber :=
      some (jsOrDefault (servicePartner.bind (fun sp => sp.carrierExportVoyageNumber)) "UNKNOWN"),
    universalImportVoyageReference := transport.universalImportVoyageReference,
    universalExportVoyageReference := transport.universalExportVoyageReference,
    location :=
      { UNLocationCode :=
          jsOr leg.departure.location.UNLocationCode leg.arrival.location.UNLocationCode,
        locationName :=
          jsOr leg.departure.location.locationName leg.arrival.location.locationName,
        address :=
          (match leg.departure.location.address with
           | some a => some a
           | none => leg.arrival.location.address),
        facilitySMDGCode :=
          if (match leg.departure.location.facility with
              | some f => f.facilityCodeListProvider == "SMDG"
              | none => false) then
            leg.departure.location.facility.map (fun f => f.facilityCode)
          else if (match leg.arrival.location.facility with
                   | some f => f.facilityCodeListProvider == "SMDG"
                   | none => false) then
            leg.arrival.location.facility.map (fun f => f.facilityCode)
          else none },
    timestamps :=
      [{ eventTypeCode := "DEPA", eventClassifierCode := "EST",
         eventDateTime := leg.departure.dateTime },
       { eventTypeCode := "ARRI", eventClassifierCode := "EST",
         eventDateTime := leg.arrival.dateTime }],
    cutOffTimes := route.cutOffTimes }

/-- The new vessel schedule created when no existing one matches the
leg's vessel IMO. -/
def newVesselSchedule (vesselIMO : String) (vessel : PtpVessel) : VesselSchedule :=
  { isDummyVessel := vesselIMO == "0000000",
    vessel :=
      some { vesselIMONumber := vesselIMO,
             name := some vessel.name,
             MMSINumber := vessel.MMSINumber,
             flag := vessel.flag,
             callSign := vessel.callSign,
             operatorCarrierCode := vessel.operatorCarrierCode,
             operatorCarrierCodeListProvider := vessel.operatorCarrierCodeListProvider },
    transportCalls := some [] }

/-- The `find`-or-create-then-push step on the vessel-schedule list: the
first vessel schedule matching the IMO receives the transport call
(appended when its `transportCalls` array exists); otherwise the freshly
created vessel schedule is appended and receives the call. -/
def pushCallIntoVessel (vesselIMO : String) (vs0 : VesselSchedule)
    (tc : TransportCall) : List VesselSchedule → List VesselSchedule
  | [] => [{ vs0 with transportCalls := some [tc] }]
  | vs :: rest =>
    if (vs.vessel.map (fun v => v.vesselIMONumber)) == some vesselIMO then
      ({ vs with
          transportCalls :=
            match vs.transportCalls with
            | some l => some (l ++ [tc])
            | none => none }) :: rest
    else vs :: pushCallIntoVessel vesselIMO vs0 tc rest

/-- Processing one leg against the insertion-ordered `serviceMap`. -/
def processLeg (route : PtpRoute) (st : List (String × PtpEntry))
    (leg : PtpLeg) : List (String × PtpEntry) :=
  let transport := leg.transport
  if transport.modeOfTransport != "VESSEL" && transport.modeOfTransport != "BARGE" then st
  else
    match legVessel transport with
    | none => st
    | some vessel =>
      let servicePartner := firstServicePartner transport
      let serviceCode :=
        jsOrDefault (servicePartner.bind (fun sp => sp.carrierServiceCode)) "UNKNOWN_SERVICE"
      let serviceName :=
        jsOrDefault (servicePartner.bind (fun sp => sp.carrierServiceName)) "Unknown Service"
      let st1 :=
        if st.any (fun e => e.1 == serviceCode) then st
        else
          st ++ [(serviceCode,
            { schedule :=
                { carrierServiceCode := serviceCode,
                  carrierServiceName := serviceName,
                  universalServiceReference := transport.universalServiceReference,
                  vesselSchedules := [] },
              pointToPointRoutes := [] })]
      let vesselIMO := jsOrStr vessel.vesselIMONumber "0000000"
      let tc := legTransportCall route leg
      st1.map (fun kv =>
        if kv.1 == serviceCode then
          (kv.1,
            { kv.2 with
                schedule :=
                  { kv.2.schedule with
                      vesselSchedules :=
                        pushCallIntoVessel vesselIMO
                          (newVesselSchedule vesselIMO vessel) tc
                          kv.2.schedule.vesselSchedules } })
        else kv)

/-- The route-level service code: the `carrierServiceCode` of the first
servicePartner of the first VESSEL/BARGE leg that has one, else
`UNKNOWN_SERVICE`. -/
def routeServiceCodeOf (route : PtpRoute) : String :=
  match route.legs.find? (fun leg =>
    (leg.transport.modeOfTransport == "VESSEL" ||
      leg.transport.modeOfTransport == "BARGE") &&
      tb ((firstServicePartner leg.transport).bind (fun sp => sp.carrierServiceCode))) with
  | some leg =>
    jsOrDefault ((firstServicePartner leg.transport).bind (fun sp => sp.carrierServiceCode))
      "UNKNOWN_SERVICE"
  | none => "UNKNOWN_SERVICE"

/-- Preserving the route metadata on the primary service entry, dedup'd
by `solutionNumber`. -/
def addRouteMeta (route : PtpRoute) (st : List (String × PtpEntry)) :
    List (String × PtpEntry) :=
  let rsc := routeServiceCodeOf route
  st.map (fun kv =>
    if kv.1 == rsc then
      if kv.2.pointToPointRoutes.any (fun m => m.solutionNumber == route.solutionNumber) then kv
      else
        (kv.1,
          { kv.2 with
              pointToPointRoutes :=
                kv.2.pointToPointRoutes ++
                  [{ placeOfReceipt := route.placeOfReceipt,
                     placeOfDelivery := route.placeOfDelivery,
                     receiptTypeAtOrigin := route.receiptTypeAtOrigin,
                     deliveryTypeAtDestination := route.deliveryTypeAtDestination,
                     cutOffTimes := route.cutOffTimes,
                     solutionNumber := route.solutionNumber,
                     routingReference := route.routingReference,
                     transitTime := route.transitTime }] })
    else kv)

/-- Processing one route: routes with no legs are skipped, the legs are
folded into the service map, then the route metadata is attached. -/
def processRoute (st : List (String × PtpEntry)) (route : PtpRoute) :
    List (String × PtpEntry) :=
  if route.legs.length == 0 then st
  else addRouteMeta route (route.legs.foldl (processLeg route) st)

/-- `mapPointToPointToDCSA`: fold all routes through the service map and
keep the services that gathered at least one vessel schedule (the
canonical-schedule part of the returned objects; the preserved
`pointToPointRoutes` ride along in `PtpEntry`). -/
def mapPointToPointToDCSA (routes : List PtpRoute) : List ServiceSchedule :=
  if routes.length == 0 then []
  else
    ((routes.foldl processRoute []).map (fun kv => kv.2.schedule)).filter
      (fun s => s.vesselSchedules.length > 0)

end MaerskPTP

/-! ## ZIM Schedule Mapper (zim/mappers/scheduleMapper.ts, reference
synthesis) -/

namespace ZIMMapper

/-- A ZIM route leg (the fields `generateTransportCallReference` reads). -/
structure ZIMRouteLeg where
  legOrder : Option Int := none
  line : Option String := none
  departurePort : Option String := none
  arrivalPort : Option String := none
  departureDate : Option String := none
  arrivalDate : Option String := none
  vesselName : Option String := none
  vesselCode : Option String := none
  lloydsCode : Option String := none
  callSign : Option String := none
  voyage : Option String := none
  consortSailingNumber : Option String := none
deriving DecidableEq, Repr

/-- `generateTransportCallReference` of the ZIM schedule mapper: join the
truthy parts with `-`, with a `ZIM-<Date.now()>` fallback when the join
is empty. -/
def generateTransportCallReference (leg : ZIMRouteLeg) (now : Nat) : String :=
  let parts : List String :=
    (["ZIM",
      jsOrDefault leg.departurePort "",
      jsOrDefault leg.arrivalPort "",
      jsOrDefault (jsOr leg.voyage leg.consortSailingNumber) "",
      jsOrDefault (jsOr leg.lloydsCode leg.vesselCode) ""]).filter
      (fun s => s != "")
  jsOrStr (String.intercalate "-" parts) ("ZIM-" ++ toString now)

end ZIMMapper

/-! ## Reference-erasure helpers (for the time-dependence analysis of the
HMM mapper) -/

/-- Erase the synthesized transport-call reference. -/
def scrubCall (c : TransportCall) : TransportCall :=
  { c with transportCallReference := "" }

/-- Erase all transport-call references of a vessel schedule. -/
def scrubVesselSchedule (vs : VesselSchedule) : VesselSchedule :=
  { vs with transportCalls := vs.transportCalls.map (fun l => l.map scrubCall) }

/-- Erase all transport-call references of a service schedule. -/
def scrubServiceSchedule (s : ServiceSchedule) : ServiceSchedule :=
  { s with vesselSchedules := s.vesselSchedules.map scrubVesselSchedule }

/-- Erase all transport-call references of a mapper result. -/
def scrubResult (r : Except String (List ServiceSchedule)) :
    Except String (List ServiceSchedule) :=
  match r with
  | .ok l => .ok (l.map scrubServiceSchedule)
  | .error e => .error e

/-- Erase the references of an intermediate transport-call list result. -/
def scrubCallsE (r : Except String (List TransportCall)) :
    Except String (List TransportCall) :=
  match r with
  | .ok l => .ok (l.map scrubCall)
  | .error e => .error e

/-- Erase the references of an intermediate vessel-schedule list result. -/
def scrubVSListE (r : Except String (List VesselSchedule)) :
    Except String (List VesselSchedule) :=
  match r with
  | .ok l => .ok (l.map scrubVesselSchedule)
  | .error e => .error e

/-! ## Concrete example inputs used by witnesses and counterexamples -/

/-- An HMM response whose single line item has a voyage code and a vessel
name but no usable arrival or departure timestamp. -/
def hmmAllEmptyResp : HMMMapper.HMMScheduleResponse :=
  { resultData := some [{ vvdCode := some "SN1",
                          portCode := some "KRPUS",
                          vesselName := some "HMM ROTTERDAM" }] }

/-- An HMM response whose single line item carries a complete arrival
date/time pair. -/
def hmmTimedResp : HMMMapper.HMMScheduleResponse :=
  { resultData := some [{ vvdCode := some "SN1",
                          portCode := some "KRPUS",
                          vesselName := some "HMM ROTTERDAM",
                          arrival := some { arrivalDate := some "20210817",
                                            arrivalTime := some "2100",
                                            arrivalStatusCode := some "A" } }] }

/-- A Maersk point-to-point route with a single VESSEL leg. -/
def maerskRouteEx : MaerskPTP.PtpRoute :=
  { placeOfReceipt :=
      { facilityTypeCode := "POTE",
        location := { UNLocationCode := some "NLRTM" },
        dateTime := "2024-05-01T10:00:00Z" },
    placeOfDelivery :=
      { facilityTypeCode := "POTE",
        location := { UNLocationCode := some "USNYC" },
        dateTime := "2024-05-12T08:00:00Z" },
    solutionNumber := some 1,
    legs :=
      [{ sequenceNumber := 1,
         transport :=
           { modeOfTransport := "VESSEL",
             transportCallReference := some "TC1",
             servicePartners :=
               some [{ carrierServiceCode := some "AE1",
                       carrierServiceName := some "Atlantic Express",
                       carrierImportVoyageNumber := some "417N",
                       carrierExportVoyageNumber := some "418S" }],
             vessel := some { vesselIMONumber := "9778791", name := "MAERSK EDINBURGH" } },
         departure :=
           { facilityTypeCode := "POTE",
             location := { UNLocationCode := some "NLRTM" },
             dateTime := "2024-05-01T10:00:00Z" },
         arrival :=
           { facilityTypeCode := "POTE",
             location := { UNLocationCode := some "USNYC" },
             dateTime := "2024-05-12T08:00:00Z" } }] }

/-- The transport-call reference of the first transport call of the first
vessel schedule of the first service schedule of a mapper result. -/
def firstCallReference (r : Except String (List ServiceSchedule)) :
    Option String :=
  match r with
  | .ok (s :: _) =>
    match s.vesselSchedules with
    | vs :: _ =>
      match vs.transportCalls with
      | some (c :: _) => some c.transportCallReference
      | _ => none
    | [] => none
  | _ => none

/-- A vessel schedule that carries at least one transport call. -/
def VSGood (vs : VesselSchedule) : Prop :=
  ∃ l, vs.transportCalls = some l ∧ l ≠ []

/-- Invariant of the Maersk point-to-point service map: every vessel
schedule of every entry carries at least one transport call. -/
def StGood (st : List (String × MaerskPTP.PtpEntry)) : Prop :=
  ∀ kv ∈ st, ∀ vs ∈ kv.2.schedule.vesselSchedules, VSGood vs

/-- A fan-out run where MAERSK succeeds with zero records and ZIM fails. -/
def fanOutOutcomesEx : List (CarrierOutcome ServiceSchedule) :=
  [{ carrier := "MAERSK", carrierName := "Maersk", result := .ok [] },
   { carrier := "ZIM", carrierName := "ZIM",
     result := .error "ZIM Schedule API requires both origin and destination locations. Please provide originCode and destCode via extended query parameters." }]

/-- A ZIM auth configuration with an endpoint-specific primary key
env-var name and nothing else. -/
def zimKeyCfgEx : AuthCfg :=
  { primaryKeys := some [("schedule", "ZIM_SCHEDULE_PRIMARY_KEY")] }

/-!
# Theorems

One theorem per claim (with witnesses or counterexamples where required),
preceded by the helper lemmas they share.
-/

/-- C3: for every CMA CGM query-parameter bag, Sub-API selection follows
the fixed precedence Route, then Proforma, then Voyage, then default
Commercial Schedule: whenever both a loading and a discharge location are
present the Route adapter is selected (even if Proforma's or Voyage's
triggers also fire), and whenever a Proforma trigger is present and the
Route trigger is not, the Proforma adapter is selected (even if a Voyage
trigger also fires). -/
theorem cmacgm_subapi_fixed_precedence :
    (∀ p : CMACGMParams, cmaRouteTrigger p = true →
      selectCMACGMSubApi p = .route) ∧
    (∀ p : CMACGMParams, cmaRouteTrigger p = false → cmaProformaTrigger p = true →
      selectCMACGMSubApi p = .proforma) := by
  constructor
  · intro p h
    simp [selectCMACGMSubApi, h]
  · intro p h1 h2
    simp [selectCMACGMSubApi, h1, h2]

/-- Witness for C3: with both lane sides present together with a service
code and a voyage code, Route wins; with the lane absent, a service code
together with a voyage code selects Proforma. -/
theorem cmacgm_subapi_fixed_precedence_witness :
    selectCMACGMSubApi
      { placeOfLoading := some "FRLEH", placeOfDischarge := some "USNYC",
        serviceCode := some "EPIC", voyageCode := some "0MR1234" } = .route ∧
    selectCMACGMSubApi
      { serviceCode := some "EPIC", voyageCode := some "0MR1234" } = .proforma :=
  ⟨cmacgm_subapi_fixed_precedence.1 _ (by decide),
   cmacgm_subapi_fixed_precedence.2 _ (by decide) (by decide)⟩

/-- C6: the Maersk Vessel Schedule adapter rejects a supplied `startDate`
or `endDate` outside [today−90, today+180] with the out-of-range error
before the network call, and accepts the window boundary itself. -/
theorem maersk_date_window_guard :
    ∀ today : Int,
      (∀ s : Int, s < today - 90 ∨ s > today + 180 →
        maerskSchedulePre true today { startDate := some s } =
          .error "Maersk Vessel Schedule API: Start Date must be within 90 days past and 180 days future from today.") ∧
      (∀ s : Int, today - 90 ≤ s → s ≤ today + 180 →
        maerskSchedulePre true today { startDate := some s } = .ok ()) ∧
      (∀ e : Int, e < today - 90 ∨ e > today + 180 →
        maerskSchedulePre true today { startDate := none, endDate := some e } =
          .error "Maersk Vessel Schedule API: End Date must be within 90 days past and 180 days future from today.") := by
  intro today
  refine ⟨fun s h => ?_, fun s h1 h2 => ?_, fun e h => ?_⟩
  · have hc : (s < today - 90 || s > today + 180) = true := by
      simp only [Bool.or_eq_true, decide_eq_true_eq]
      exact h
    show (if s < today - 90 || s > today + 180 then _ else _) = _
    rw [hc]
    rfl
  · have hc : (s < today - 90 || s > today + 180) = false := by
      simp only [Bool.or_eq_false_iff, decide_eq_false_iff_not, not_lt]
      omega
    show (if s < today - 90 || s > today + 180 then _ else _) = _
    rw [hc]
    rfl
  · have hc : (e < today - 90 || e > today + 180) = true := by
      simp only [Bool.or_eq_true, decide_eq_true_eq]
      exact h
    show (if e < today - 90 || e > today + 180 then _ else _) = _
    rw [hc]
    rfl

/-- Witness for C6: with today = 20000, a start date of today−91 raises
the out-of-range error, today−90 and today−89 do not. -/
theorem maersk_date_window_guard_witness :
    maerskSchedulePre true 20000 { startDate := some 19909 } =
      .error "Maersk Vessel Schedule API: Start Date must be within 90 days past and 180 days future from today." ∧
    maerskSchedulePre true 20000 { startDate := some 19910 } = .ok () ∧
    maerskSchedulePre true 20000 { startDate := some 19911 } = .ok () :=
  ⟨(maersk_date_window_guard 20000).1 19909 (by omega),
   (maersk_date_window_guard 20000).2.1 19910 (by omega) (by omega),
   (maersk_date_window_guard 20000).2.1 19911 (by omega) (by omega)⟩

/-- C7: an HMM query with no `carrierVoyageNumber`, with an incomplete
PTP triple and an incomplete Port Schedule triple routes to the Vessel
Schedule adapter, which raises the missing-required-parameter error
naming `carrierVoyageNumber (vvdCode)` before its network call. -/
theorem hmm_router_fallback_then_missing_param :
    ∀ p : HMMParams,
      tb p.carrierVoyageNumber = false →
      (tb p.fromLocationCode && tb p.toLocationCode && tb p.periodDate) = false →
      (tb p.UNLocationCode && tb p.startDate && tb p.endDate) = false →
      selectHMMSubApi p = .vessel ∧
        hmmVesselSchedulePre true p =
          .error "HMM Schedule API requires carrierVoyageNumber (vvdCode) parameter" := by
  intro p h1 h2 h3
  constructor
  · simp [selectHMMSubApi, h1, h2, h3]
  · simp [hmmVesselSchedulePre, h1]

/-- Witness for C7: the empty parameter bag falls back to the Vessel
Schedule adapter and fails with the vvdCode error. -/
theorem hmm_router_fallback_then_missing_param_witness :
    selectHMMSubApi {} = .vessel ∧
      hmmVesselSchedulePre true {} =
        .error "HMM Schedule API requires carrierVoyageNumber (vvdCode) parameter" :=
  hmm_router_fallback_then_missing_param {} rfl rfl rfl

/-- Counterexample for C8: with origin, destination and `UNLocationCode`
all absent, the ZIM adapter raises no error — the pre-network phase
reaches the outbound request (`.ok ()`) instead of the claimed hard
missing-required-parameter error. -/
theorem zim_absent_locations_counterexample :
    ({} : ZIMParams).originCode = none ∧ ({} : ZIMParams).destCode = none ∧
    ({} : ZIMParams).UNLocationCode = none ∧
    zimAdapterPre true {} = .ok () :=
  ⟨rfl, rfl, rfl, rfl⟩

/-- C8 (amended): ZIM has exactly one schedule Sub-API — the carrier
adapter delegates unconditionally to the Point-to-Point schedule adapter —
and that adapter raises its hard both-locations error before any network
call exactly when a (single) `UNLocationCode` is supplied; when no
location parameter is supplied at all it proceeds to the network call
without origin and destination. -/
theorem zim_single_subapi_location_guard :
    ∀ p : ZIMParams,
      zimAdapterPre true p = zimSchedulePre true p ∧
      (tb p.UNLocationCode = true →
        zimSchedulePre true p =
          .error "ZIM Schedule API requires both origin and destination locations. Please provide originCode and destCode via extended query parameters.") ∧
      (tb p.UNLocationCode = false → zimSchedulePre true p = .ok ()) := by
  intro p
  refine ⟨rfl, fun h => ?_, fun h => ?_⟩
  · simp [zimSchedulePre, h]
  · simp [zimSchedulePre, h]

/-- Witness for C8: a lone `UNLocationCode` raises the hard error; the
empty bag proceeds. -/
theorem zim_single_subapi_location_guard_witness :
    zimSchedulePre true { UNLocationCode := some "USNYC" } =
      .error "ZIM Schedule API requires both origin and destination locations. Please provide originCode and destCode via extended query parameters." ∧
    zimSchedulePre true {} = .ok () :=
  ⟨(zim_single_subapi_location_guard _).2.1 rfl,
   (zim_single_subapi_location_guard _).2.2 rfl⟩

/-- C10: in the OAuth2 branch, when the configured supplementary API-key
env var does not resolve (absent or empty), the Credential Manager
returns only the Authorization bearer header; the supplementary-key
lookup has no failure path. -/
theorem oauth2_supplementary_key_never_fails :
    ∀ (env : Env) (cfg : AuthCfg) (endpointType : Option String)
      (tokenType token : String),
      (∀ n, oauth2SupplementaryEnvVar cfg endpointType = some n →
        envTruthy env n = none) →
      getAuthHeadersOAuth2 env cfg endpointType tokenType token =
        [("Authorization", tokenType ++ " " ++ token)] := by
  intro env cfg ep tt tk hres
  unfold getAuthHeadersOAuth2
  cases hcond : (tb cfg.headerName && cfg.apiKeys.isSome)
  · simp
  · cases hvar : oauth2SupplementaryEnvVar cfg ep with
    | none => simp
    | some n =>
      have hnone := hres n hvar
      simp [hnone]

/-- Witness for C10: Maersk-style configuration (header name plus
schedule API-key env var) with an empty environment yields exactly the
bearer header. -/
theorem oauth2_supplementary_key_never_fails_witness :
    getAuthHeadersOAuth2 []
      { headerName := some "Consumer-Key",
        apiKeys := some [("schedule", "MAERSK_SCHEDULE_API_KEY")] }
      (some "schedule") "Bearer" "tok123" =
      [("Authorization", "Bearer tok123")] :=
  oauth2_supplementary_key_never_fails [] _ (some "schedule") "Bearer" "tok123"
    (fun n h => by
      have hn : n = "MAERSK_SCHEDULE_API_KEY" := by
        have : (some "MAERSK_SCHEDULE_API_KEY" : Option String) = some n := by
          exact h ▸ rfl
        exact (Option.some.injEq _ _ ▸ this).symm
      subst hn
      rfl)

/-- C1 (code evaluated at the failing input): a fan-out run in which one
carrier succeeds with zero records while another carrier fails is
reported as the collective `All carriers failed` response, although a
carrier succeeded. -/
theorem fanout_zero_record_success_counts_as_total_failure :
    (∃ o ∈ fanOutOutcomesEx, ∃ r, o.result = Except.ok r) ∧
    aggregate fanOutOutcomesEx =
      .allFailed [("ZIM", "ZIM Schedule API requires both origin and destination locations. Please provide originCode and destCode via extended query parameters.")] := by
  refine ⟨⟨_, List.mem_cons_self _ _, [], rfl⟩, rfl⟩

/-- Counterexample for C9: with only an endpoint-specific primary key
configured and an empty environment, `getApiKey` reads the carrier-wide
default `ZIM_API_KEY` (it is among the env vars tried) but the raised
error enumerates only the endpoint-specific names — `ZIM_API_KEY` does
not occur in the message. -/
theorem apikey_error_omits_tried_default_counterexample :
    getApiKey [] "ZIM" zimKeyCfgEx (some "schedule") =
      .error "API Key not found for carrier: ZIM, endpoint: schedule. Please set one of: ZIM_SCHEDULE_PRIMARY_KEY (Primary Key)" ∧
    "ZIM_API_KEY" ∈ apiKeyEnvVarsTried "ZIM" zimKeyCfgEx (some "schedule") ∧
    strContains "API Key not found for carrier: ZIM, endpoint: schedule. Please set one of: ZIM_SCHEDULE_PRIMARY_KEY (Primary Key)" "ZIM_API_KEY" = false := by
  refine ⟨rfl, by decide, by decide⟩

/-- Counterexample for C5: a datetime that already carries an explicit
`+09:00` offset is not passed through unchanged — the code appends `Z`
whenever the string does not already end in `Z`, offset or not. -/
theorem hmm_datetime_offset_counterexample :
    endsWithUtcOffset "2021-12-03T14:49:00+09:00" = true ∧
    HMMPTPMapper.normalizeDateTime (fun _ => none) "2021-12-03T14:49:00+09:00" =
      .ok "2021-12-03T14:49:00+09:00Z" := by
  refine ⟨by decide, rfl⟩

/-- C5 (amended): the HMM `YYYYMMDD`+`HHMM` pair converts to
`YYYY-MM-DDTHH:MM:00Z` (the cited example yields an `ARRI` timestamp at
`2021-08-17T21:00:00Z`); a datetime already containing `T` is passed
through with `Z` appended unless it already ends with `Z` (a numeric
offset still receives an appended `Z`); and a date or time of the wrong
length raises a hard error. -/
theorem hmm_datetime_normalization :
    (HMMMapper.convertHMMDateTime "20210817" "2100" = .ok "2021-08-17T21:00:00Z") ∧
    (HMMMapper.itemTimestamps
        { arrival := some { arrivalDate := some "20210817",
                            arrivalTime := some "2100" } } =
      .ok [{ eventTypeCode := "ARRI", eventClassifierCode := "EST",
             eventDateTime := "2021-08-17T21:00:00Z" }]) ∧
    (∀ (p : String → Option String) (s : String),
      strHasChar s 'T' = true → s ≠ "" →
      HMMPTPMapper.normalizeDateTime p s =
        .ok (if endsWithChar s 'Z' then s else s ++ "Z")) ∧
    (∀ d t : String, d.length ≠ 8 →
      HMMMapper.convertHMMDateTime d t =
        .error ("Invalid date format: " ++ d ++ ". Expected YYYYMMDD")) ∧
    (∀ d t : String, d.length = 8 → t.length ≠ 4 →
      HMMMapper.convertHMMDateTime d t =
        .error ("Invalid time format: " ++ t ++ ". Expected HHMM")) := by
  refine ⟨rfl, rfl, ?_, ?_, ?_⟩
  · intro p s hT hne
    have h1 : (s == "") = false := by
      simp [hne]
    simp [HMMPTPMapper.normalizeDateTime, h1, hT]
  · intro d t h
    have h8 : (d.length != 8) = true := by
      simp [h]
    simp [HMMMapper.convertHMMDateTime, h8]
  · intro d t h8 h4
    have hne : (d == "") = false := by
      simp only [beq_eq_false_iff_ne, ne_eq]
      intro e
      subst e
      simp at h8
    have h8f : (d.length != 8) = false := by
      simp [h8]
    have h4t : (t.length != 4) = true := by
      simp [h4]
    simp [HMMMapper.convertHMMDateTime, hne, h8f, h4t]

/-- Witness for C5: a `T`-containing datetime with no trailing `Z` gets
one appended; a dashed date and a colon-separated time each raise the
hard error. -/
theorem hmm_datetime_normalization_witness :
    HMMPTPMapper.normalizeDateTime (fun _ => none) "2021-12-03T14:49:00" =
      .ok "2021-12-03T14:49:00Z" ∧
    HMMMapper.convertHMMDateTime "2021-08-17" "2100" =
      .error "Invalid date format: 2021-08-17. Expected YYYYMMDD" ∧
    HMMMapper.convertHMMDateTime "20210817" "21:00" =
      .error "Invalid time format: 21:00. Expected HHMM" :=
  ⟨hmm_datetime_normalization.2.2.1 (fun _ => none) "2021-12-03T14:49:00"
      (by decide) (by decide),
   hmm_datetime_normalization.2.2.2.1 "2021-08-17" "2100" (by decide),
   hmm_datetime_normalization.2.2.2.2 "20210817" "21:00" (by decide) (by decide)⟩

/-- One tier of the resolution order: the head of the tried list resolves
first, else resolution continues with the rest. -/
theorem apikey_findSome_tier (env : Env) (name : Option String) (rest : List String) :
    List.findSome? (envTruthy env)
      ((match name with
        | some n => if n != "" then [n] else []
        | none => []) ++ rest) =
      (match tryEnvKey env name with
       | some v => some v
       | none => List.findSome? (envTruthy env) rest) := by
  cases name with
  | none => simp [tryEnvKey]
  | some n =>
    by_cases hn : n = ""
    · subst hn
      simp [tryEnvKey]
    · have hbn : (n != "") = true := by simp [hn]
      simp only [hbn, if_true, List.cons_append, List.nil_append,
        List.findSome?, tryEnvKey]
      cases envTruthy env n <;> simp

/-- C9 (amended): `getApiKey` resolves exactly in the order
endpoint-specific primary, endpoint-specific secondary, endpoint-specific
generic, carrier-wide default — returning the first env var set (so a
configured primary key wins over a set carrier default) — and raises an
error when none resolves; but that error enumerates only the
endpoint-specific env-var names (the carrier-wide default appears in it
only when no endpoint-specific name is configured), not every env var
tried. -/
theorem apikey_resolution_order :
    ∀ (env : Env) (carrierCode : String) (cfg : AuthCfg)
      (endpointType : Option String),
      (∀ v, resolveApiKeyOrder env carrierCode cfg endpointType = some v →
        getApiKey env carrierCode cfg endpointType = .ok v) ∧
      (resolveApiKeyOrder env carrierCode cfg endpointType = none →
        ∃ msg, getApiKey env carrierCode cfg endpointType = .error msg) := by
  intro env c cfg ep
  cases ep with
  | none =>
    have hres : resolveApiKeyOrder env c cfg none =
        envTruthy env (c ++ "_API_KEY") := by
      unfold resolveApiKeyOrder apiKeyEnvVarsTried
      simp only [List.nil_append, List.findSome?]
      cases envTruthy env (c ++ "_API_KEY") <;> rfl
    constructor
    · intro v
      rw [hres]
      simp only [getApiKey, tryEnvKey]
      cases h4 : envTruthy env (c ++ "_API_KEY") with
      | some w => intro hv; cases hv; rfl
      | none => intro hv; cases hv
    · rw [hres]
      simp only [getApiKey, tryEnvKey]
      cases h4 : envTruthy env (c ++ "_API_KEY") with
      | some w => intro hv; cases hv
      | none => intro _; exact ⟨_, rfl⟩
  | some e =>
    have hres : resolveApiKeyOrder env c cfg (some e) =
        (match tryEnvKey env (mapLookup cfg.primaryKeys e) with
         | some v => some v
         | none =>
           match tryEnvKey env (mapLookup cfg.secondaryKeys e) with
           | some v => some v
           | none =>
             match tryEnvKey env (mapLookup cfg.apiKeys e) with
             | some v => some v
             | none => envTruthy env (c ++ "_API_KEY")) := by
      unfold resolveApiKeyOrder apiKeyEnvVarsTried
      rw [List.append_assoc, List.append_assoc,
        apikey_findSome_tier env (mapLookup cfg.primaryKeys e)]
      cases tryEnvKey env (mapLookup cfg.primaryKeys e) with
      | some v => rfl
      | none =>
        rw [apikey_findSome_tier env (mapLookup cfg.secondaryKeys e)]
        cases tryEnvKey env (mapLookup cfg.secondaryKeys e) with
        | some v => rfl
        | none =>
          rw [apikey_findSome_tier env (mapLookup cfg.apiKeys e)]
          cases tryEnvKey env (mapLookup cfg.apiKeys e) with
          | some v => rfl
          | none =>
            simp only [List.findSome?]
            cases envTruthy env (c ++ "_API_KEY") <;> rfl
    constructor
    · intro v
      rw [hres]
      simp only [getApiKey]
      cases h1 : tryEnvKey env (mapLookup cfg.primaryKeys e) with
      | some w => intro hv; cases hv; rfl
      | none =>
        cases h2 : tryEnvKey env (mapLookup cfg.secondaryKeys e) with
        | some w => intro hv; cases hv; rfl
        | none =>
          cases h3 : tryEnvKey env (mapLookup cfg.apiKeys e) with
          | some w => intro hv; cases hv; rfl
          | none =>
            cases h4 : envTruthy env (c ++ "_API_KEY") with
            | some w => intro hv; cases hv; rfl
            | none => intro hv; cases hv
    · rw [hres]
      clear hres
      simp only [getApiKey]
      cases h1 : tryEnvKey env (mapLookup cfg.primaryKeys e) with
      | some w => intro hv; cases hv
      | none =>
        cases h2 : tryEnvKey env (mapLookup cfg.secondaryKeys e) with
        | some w => intro hv; cases hv
        | none =>
          cases h3 : tryEnvKey env (mapLookup cfg.apiKeys e) with
          | some w => intro hv; cases hv
          | none =>
            cases h4 : envTruthy env (c ++ "_API_KEY") with
            | some w => intro hv; cases hv
            | none =>
              intro _
              by_cases hm :
                ((if tb (mapLookup cfg.primaryKeys e) then
                    [(mapLookup cfg.primaryKeys e).getD "" ++ " (Primary Key)"]
                  else []) ++
                 (if tb (mapLookup cfg.secondaryKeys e) then
                    [(mapLookup cfg.secondaryKeys e).getD "" ++ " (Secondary Key)"]
                  else []) ++
                 (if tb (mapLookup cfg.apiKeys e) then
                    [(mapLookup cfg.apiKeys e).getD ""]
                  else [])).length > 0
              · exact ⟨_, by rw [if_pos hm]⟩
              · exact ⟨_, by rw [if_neg hm]⟩

/-- Witness for C9: with both the endpoint-specific primary env var and
the carrier default set, resolution returns the primary key's value. -/
theorem apikey_resolution_order_witness :
    getApiKey [("MAERSK_SCHEDULE_PRIMARY", "pk"), ("MAERSK_API_KEY", "dk")]
      "MAERSK" { primaryKeys := some [("schedule", "MAERSK_SCHEDULE_PRIMARY")] }
      (some "schedule") = .ok "pk" :=
  (apikey_resolution_order _ _ _ _).1 "pk" rfl

/-- The transport calls an item group produces are independent of the
clock up to the synthesized references. -/
theorem scrubCallsE_buildTransportCalls (v : String) (t₁ t₂ : Nat) :
    ∀ items, scrubCallsE (HMMMapper.buildTransportCalls v t₁ items) =
      scrubCallsE (HMMMapper.buildTransportCalls v t₂ items) := by
  intro items
  induction items with
  | nil => rfl
  | cons item rest ih =>
    simp only [HMMMapper.buildTransportCalls]
    cases hts : HMMMapper.itemTimestamps item with
    | error e => rfl
    | ok timestamps =>
      cases h1 : HMMMapper.buildTransportCalls v t₁ rest with
      | error e =>
        cases h2 : HMMMapper.buildTransportCalls v t₂ rest with
        | error e2 =>
          rw [h1, h2] at ih
          simp only [scrubCallsE, Except.error.injEq] at ih
          rw [ih]
        | ok l2 =>
          rw [h1, h2] at ih
          simp [scrubCallsE] at ih
      | ok tail1 =>
        cases h2 : HMMMapper.buildTransportCalls v t₂ rest with
        | error e2 =>
          rw [h1, h2] at ih
          simp [scrubCallsE] at ih
        | ok tail2 =>
          rw [h1, h2] at ih
          simp only [scrubCallsE, Except.ok.injEq] at ih
          cases hlen : (timestamps.length == 0) with
          | true => simp [hlen, scrubCallsE, ih]
          | false => simp [hlen, scrubCallsE, ih, scrubCall]

/-- Scrubbing commutes with `buildVesselSchedule`. -/
theorem scrubVS_buildVesselSchedule (n : String) (calls : List TransportCall) :
    scrubVesselSchedule (HMMMapper.buildVesselSchedule n calls) =
      HMMMapper.buildVesselSchedule n (calls.map scrubCall) := by
  cases calls with
  | nil => rfl
  | cons c cs => simp [HMMMapper.buildVesselSchedule, scrubVesselSchedule]

/-- The vessel schedules of a voyage group are independent of the clock
up to the synthesized references. -/
theorem scrubVSListE_buildVesselScheduleList (v : String) (t₁ t₂ : Nat) :
    ∀ groups, scrubVSListE (HMMMapper.buildVesselScheduleList v t₁ groups) =
      scrubVSListE (HMMMapper.buildVesselScheduleList v t₂ groups) := by
  intro groups
  induction groups with
  | nil => rfl
  | cons g rest ih =>
    obtain ⟨name, items⟩ := g
    simp only [HMMMapper.buildVesselScheduleList]
    have hcalls := scrubCallsE_buildTransportCalls v t₁ t₂
      (stableSortByKey HMMMapper.hmmSortDate items)
    cases h1 : HMMMapper.buildTransportCalls v t₁
        (stableSortByKey HMMMapper.hmmSortDate items) with
    | error e =>
      cases h2 : HMMMapper.buildTransportCalls v t₂
          (stableSortByKey HMMMapper.hmmSortDate items) with
      | error e2 =>
        rw [h1, h2] at hcalls
        simp only [scrubCallsE, Except.error.injEq] at hcalls
        rw [hcalls]
      | ok l2 =>
        rw [h1, h2] at hcalls
        simp [scrubCallsE] at hcalls
    | ok calls1 =>
      cases h2 : HMMMapper.buildTransportCalls v t₂
          (stableSortByKey HMMMapper.hmmSortDate items) with
      | error e2 =>
        rw [h1, h2] at hcalls
        simp [scrubCallsE] at hcalls
      | ok calls2 =>
        rw [h1, h2] at hcalls
        simp only [scrubCallsE, Except.ok.injEq] at hcalls
        cases hr1 : HMMMapper.buildVesselScheduleList v t₁ rest with
        | error e =>
          cases hr2 : HMMMapper.buildVesselScheduleList v t₂ rest with
          | error e2 =>
            rw [hr1, hr2] at ih
            simp only [scrubVSListE, Except.error.injEq] at ih
            rw [ih]
          | ok l2 =>
            rw [hr1, hr2] at ih
            simp [scrubVSListE] at ih
        | ok tail1 =>
          cases hr2 : HMMMapper.buildVesselScheduleList v t₂ rest with
          | error e2 =>
            rw [hr1, hr2] at ih
            simp [scrubVSListE] at ih
          | ok tail2 =>
            rw [hr1, hr2] at ih
            simp only [scrubVSListE, Except.ok.injEq] at ih
            simp only [scrubVSListE, Except.ok.injEq, List.map_cons, List.cons.injEq]
            exact ⟨by rw [scrubVS_buildVesselSchedule, scrubVS_buildVesselSchedule, hcalls], ih⟩

/-- The service schedules are independent of the clock up to the
synthesized references. -/
theorem scrubResult_buildServiceSchedules (csc : Option String) (t₁ t₂ : Nat) :
    ∀ groups, scrubResult (HMMMapper.buildServiceSchedules csc t₁ groups) =
      scrubResult (HMMMapper.buildServiceSchedules csc t₂ groups) := by
  intro groups
  induction groups with
  | nil => rfl
  | cons g rest ih =>
    obtain ⟨vvdCode, items⟩ := g
    simp only [HMMMapper.buildServiceSchedules]
    have hvss := scrubVSListE_buildVesselScheduleList vvdCode t₁ t₂
      (groupByKey (fun it => jsOrDefault it.vesselName "UNKNOWN") items)
    cases h1 : HMMMapper.buildVesselScheduleList vvdCode t₁
        (groupByKey (fun it => jsOrDefault it.vesselName "UNKNOWN") items) with
    | error e =>
      cases h2 : HMMMapper.buildVesselScheduleList vvdCode t₂
          (groupByKey (fun it => jsOrDefault it.vesselName "UNKNOWN") items) with
      | error e2 =>
        rw [h1, h2] at hvss
        simp only [scrubVSListE, Except.error.injEq] at hvss
        rw [hvss]
      | ok l2 =>
        rw [h1, h2] at hvss
        simp [scrubVSListE] at hvss
    | ok vss1 =>
      cases h2 : HMMMapper.buildVesselScheduleList vvdCode t₂
          (groupByKey (fun it => jsOrDefault it.vesselName "UNKNOWN") items) with
      | error e2 =>
        rw [h1, h2] at hvss
        simp [scrubVSListE] at hvss
      | ok vss2 =>
        rw [h1, h2] at hvss
        simp only [scrubVSListE, Except.ok.injEq] at hvss
        cases hr1 : HMMMapper.buildServiceSchedules csc t₁ rest with
        | error e =>
          cases hr2 : HMMMapper.buildServiceSchedules csc t₂ rest with
          | error e2 =>
            rw [hr1, hr2] at ih
            simp only [scrubResult, Except.error.injEq] at ih
            rw [ih]
          | ok l2 =>
            rw [hr1, hr2] at ih
            simp [scrubResult] at ih
        | ok tail1 =>
          cases hr2 : HMMMapper.buildServiceSchedules csc t₂ rest with
          | error e2 =>
            rw [hr1, hr2] at ih
            simp [scrubResult] at ih
          | ok tail2 =>
            rw [hr1, hr2] at ih
            simp only [scrubResult, Except.ok.injEq] at ih
            simp only [scrubResult, Except.ok.injEq, List.map_cons, List.cons.injEq]
            exact ⟨by simp [scrubServiceSchedule, hvss], ih⟩

/-- `String.intercalate.go` keeps a non-empty accumulator non-empty. -/
theorem intercalate_go_data_ne (sep : String) :
    ∀ (ss : List String) (acc : String), acc.data ≠ [] →
      (String.intercalate.go acc sep ss).data ≠ [] := by
  intro ss
  induction ss with
  | nil =>
    intro acc h
    simpa [String.intercalate.go] using h
  | cons a as ih =>
    intro acc h
    simp only [String.intercalate.go]
    apply ih
    simp only [String.data_append, ne_eq, List.append_eq_nil]
    tauto

/-- The joined ZIM reference parts are never the empty string. -/
theorem zim_joined_parts_ne_empty (l : List String) :
    (String.intercalate "-" ("ZIM" :: l) != "") = true := by
  have h : (String.intercalate "-" ("ZIM" :: l)).data ≠ [] := by
    simp only [String.intercalate]
    exact intercalate_go_data_ne "-" l "ZIM" (by decide)
  rw [bne_iff_ne]
  intro e
  rw [e] at h
  exact h rfl

/-- Counterexample for C4: the HMM schedule mapper applied to the same
payload at two different clock readings produces different outputs — the
synthesized `transportCallReference` embeds `Date.now()`. -/
theorem hmm_mapper_not_time_invariant_counterexample :
    firstCallReference (HMMMapper.mapHMMScheduleToDCSA hmmTimedResp none 0) =
      some "HMM-SN1-KRPUS-0" ∧
    firstCallReference (HMMMapper.mapHMMScheduleToDCSA hmmTimedResp none 1) =
      some "HMM-SN1-KRPUS-1" ∧
    HMMMapper.mapHMMScheduleToDCSA hmmTimedResp none 0 ≠
      HMMMapper.mapHMMScheduleToDCSA hmmTimedResp none 1 := by
  refine ⟨rfl, rfl, fun h => ?_⟩
  have h2 := congrArg firstCallReference h
  rw [show firstCallReference (HMMMapper.mapHMMScheduleToDCSA hmmTimedResp none 0) =
        some "HMM-SN1-KRPUS-0" from rfl,
      show firstCallReference (HMMMapper.mapHMMScheduleToDCSA hmmTimedResp none 1) =
        some "HMM-SN1-KRPUS-1" from rfl] at h2
  exact absurd h2 (by decide)

/-- C4 (amended): each Mapper is a deterministic function of the payload
and the clock reading — at a fixed clock reading a second application
yields identical output — but the HMM schedule mapper's synthesized
`transportCallReference` embeds `Date.now()`, so two runs at different
times differ exactly there: erasing the references makes its output
time-independent. The ZIM mapper's reference is time-independent outright
(its `Date.now()` fallback is unreachable because the joined key always
contains the literal `ZIM` part). -/
theorem mapper_deterministic_modulo_references :
    (∀ (resp : HMMMapper.HMMScheduleResponse) (csc : Option String) (t₁ t₂ : Nat),
      scrubResult (HMMMapper.mapHMMScheduleToDCSA resp csc t₁) =
        scrubResult (HMMMapper.mapHMMScheduleToDCSA resp csc t₂)) ∧
    (∀ (leg : ZIMMapper.ZIMRouteLeg) (t₁ t₂ : Nat),
      ZIMMapper.generateTransportCallReference leg t₁ =
        ZIMMapper.generateTransportCallReference leg t₂) := by
  constructor
  · intro resp csc t₁ t₂
    unfold HMMMapper.mapHMMScheduleToDCSA
    cases resp.resultData with
    | none => rfl
    | some items =>
      cases hlen : (items.length == 0) with
      | true => simp [hlen]
      | false =>
        simp only [hlen, Bool.false_eq_true, if_false]
        exact scrubResult_buildServiceSchedules csc t₁ t₂ _
  · intro leg t₁ t₂
    unfold ZIMMapper.generateTransportCallReference
    rw [show List.filter (fun s => s != "")
          ["ZIM", jsOrDefault leg.departurePort "", jsOrDefault leg.arrivalPort "",
           jsOrDefault (jsOr leg.voyage leg.consortSailingNumber) "",
           jsOrDefault (jsOr leg.lloydsCode leg.vesselCode) ""] =
        "ZIM" :: List.filter (fun s => s != "")
          [jsOrDefault leg.departurePort "", jsOrDefault leg.arrivalPort "",
           jsOrDefault (jsOr leg.voyage leg.consortSailingNumber) "",
           jsOrDefault (jsOr leg.lloydsCode leg.vesselCode) ""]
      from List.filter_cons_of_pos (by decide)]
    simp only [jsOrStr, zim_joined_parts_ne_empty, if_true]

/-- Counterexample for C2: the HMM schedule mapper returns a
`ServiceSchedule` whose only `VesselSchedule` carries zero transport
calls — nothing drops it. -/
theorem hmm_allempty_schedule_not_dropped_counterexample :
    ∃ out, HMMMapper.mapHMMScheduleToDCSA hmmAllEmptyResp none 0 = .ok out ∧
      ∃ s ∈ out, s.vesselSchedules ≠ [] ∧
        ∀ vs ∈ s.vesselSchedules, vs.transportCalls = none := by
  refine ⟨[{ carrierServiceCode := "SN", carrierServiceName := "SN",
             vesselSchedules := [{ vessel := some { vesselIMONumber := "0000000",
                                                    name := some "HMM ROTTERDAM" },
                                   isDummyVessel := false,
                                   transportCalls := none }] }], rfl,
    ⟨_, List.mem_singleton.mpr rfl, by simp, ?_⟩⟩
  intro vs hvs
  rw [List.mem_singleton] at hvs
  subst hvs
  rfl

/-- Every vessel schedule surviving the find-or-create-push step carries
at least one transport call, given all previous ones did. -/
theorem pushCallIntoVessel_good (imo : String) (vs0 : VesselSchedule)
    (tc : TransportCall) :
    ∀ lst, (∀ vs ∈ lst, VSGood vs) →
      ∀ vs ∈ MaerskPTP.pushCallIntoVessel imo vs0 tc lst, VSGood vs := by
  intro lst
  induction lst with
  | nil =>
    intro _ vs hvs
    simp only [MaerskPTP.pushCallIntoVessel, List.mem_singleton] at hvs
    subst hvs
    exact ⟨[tc], rfl, by simp⟩
  | cons y ys ih =>
    intro hgood vs hvs
    simp only [MaerskPTP.pushCallIntoVessel] at hvs
    by_cases hm : ((y.vessel.map (fun v => v.vesselIMONumber)) == some imo) = true
    · rw [if_pos hm] at hvs
      rcases List.mem_cons.mp hvs with h | h
      · obtain ⟨l, hl, hne⟩ := hgood y (List.mem_cons_self _ _)
        subst h
        exact ⟨l ++ [tc], by simp [hl], by simp⟩
      · exact hgood vs (List.mem_cons_of_mem _ h)
    · rw [if_neg hm] at hvs
      rcases List.mem_cons.mp hvs with h | h
      · subst h
        exact hgood _ (List.mem_cons_self _ _)
      · exact ih (fun w hw => hgood w (List.mem_cons_of_mem _ hw)) vs h

/-- The targeted map-update of the service map preserves the invariant. -/
theorem mapUpdate_good (st1 : List (String × MaerskPTP.PtpEntry))
    (sc imo : String) (vs0 : VesselSchedule) (tc : TransportCall)
    (h : StGood st1) :
    StGood (st1.map (fun kv =>
      if kv.1 == sc then
        (kv.1,
          { kv.2 with
              schedule :=
                { kv.2.schedule with
                    vesselSchedules :=
                      MaerskPTP.pushCallIntoVessel imo vs0 tc
                        kv.2.schedule.vesselSchedules } })
      else kv)) := by
  intro kv hkv vs hvs
  rcases List.mem_map.mp hkv with ⟨kv', hkv', rfl⟩
  by_cases hsc : (kv'.1 == sc) = true
  · rw [if_pos hsc] at hvs
    exact pushCallIntoVessel_good imo vs0 tc _ (h kv' hkv') vs hvs
  · rw [if_neg hsc] at hvs
    exact h kv' hkv' vs hvs

/-- Appending a fresh entry with no vessel schedules preserves the
invariant. -/
theorem append_entry_good (st : List (String × MaerskPTP.PtpEntry))
    (e : String × MaerskPTP.PtpEntry) (h : StGood st)
    (he : ∀ vs ∈ e.2.schedule.vesselSchedules, VSGood vs) :
    StGood (st ++ [e]) := by
  intro kv hkv
  rcases List.mem_append.mp hkv with h1 | h1
  · exact h kv h1
  · rw [List.mem_singleton] at h1
    subst h1
    exact he

/-- Processing one leg preserves the invariant. -/
theorem processLeg_good (route : MaerskPTP.PtpRoute) (leg : MaerskPTP.PtpLeg)
    (st : List (String × MaerskPTP.PtpEntry)) (h : StGood st) :
    StGood (MaerskPTP.processLeg route st leg) := by
  unfold MaerskPTP.processLeg
  by_cases hmode : (leg.transport.modeOfTransport != "VESSEL" &&
      leg.transport.modeOfTransport != "BARGE") = true
  · rw [if_pos hmode]
    exact h
  · rw [if_neg hmode]
    cases hv : MaerskPTP.legVessel leg.transport with
    | none => exact h
    | some vessel =>
      simp only []
      apply mapUpdate_good
      by_cases hany : (st.any (fun e =>
          e.1 == jsOrDefault ((MaerskPTP.firstServicePartner leg.transport).bind
            (fun sp => sp.carrierServiceCode)) "UNKNOWN_SERVICE")) = true
      · rw [if_pos hany]
        exact h
      · rw [if_neg hany]
        apply append_entry_good _ _ h
        intro vs hvs
        simp at hvs

/-- Folding the legs preserves the invariant. -/
theorem foldl_processLeg_good (route : MaerskPTP.PtpRoute) :
    ∀ (legs : List MaerskPTP.PtpLeg) st, StGood st →
      StGood (legs.foldl (MaerskPTP.processLeg route) st) := by
  intro legs
  induction legs with
  | nil => intro st h; exact h
  | cons leg rest ih =>
    intro st h
    exact ih _ (processLeg_good route leg st h)

/-- Attaching route metadata does not touch any vessel schedule. -/
theorem addRouteMeta_good (route : MaerskPTP.PtpRoute)
    (st : List (String × MaerskPTP.PtpEntry)) (h : StGood st) :
    StGood (MaerskPTP.addRouteMeta route st) := by
  intro kv hkv vs hvs
  simp only [MaerskPTP.addRouteMeta] at hkv
  rcases List.mem_map.mp hkv with ⟨kv', hkv', rfl⟩
  by_cases h1 : (kv'.1 == MaerskPTP.routeServiceCodeOf route) = true
  · rw [if_pos h1] at hvs
    by_cases h2 : (kv'.2.pointToPointRoutes.any
        (fun m => m.solutionNumber == route.solutionNumber)) = true
    · rw [if_pos h2] at hvs
      exact h kv' hkv' vs hvs
    · rw [if_neg h2] at hvs
      exact h kv' hkv' vs hvs
  · rw [if_neg h1] at hvs
    exact h kv' hkv' vs hvs

/-- Processing one route preserves the invariant. -/
theorem processRoute_good (st : List (String × MaerskPTP.PtpEntry))
    (route : MaerskPTP.PtpRoute) (h : StGood st) :
    StGood (MaerskPTP.processRoute st route) := by
  unfold MaerskPTP.processRoute
  by_cases hlen : (route.legs.length == 0) = true
  · rw [if_pos hlen]
    exact h
  · rw [if_neg hlen]
    exact addRouteMeta_good _ _ (foldl_processLeg_good route route.legs st h)

/-- Folding all routes preserves the invariant. -/
theorem foldl_processRoute_good :
    ∀ (routes : List MaerskPTP.PtpRoute) st, StGood st →
      StGood (routes.foldl MaerskPTP.processRoute st) := by
  intro routes
  induction routes with
  | nil => intro st h; exact h
  | cons route rest ih =>
    intro st h
    exact ih _ (processRoute_good st route h)

/-- C2 (amended): every `ServiceSchedule` returned by the Maersk
point-to-point mapper contains at least one `VesselSchedule` with a
non-empty transport-call list (the mapper filters out services with no
vessel schedules, and every vessel schedule it builds receives a call on
creation); the HMM schedule mapper, by contrast, performs no such
filtering and can return a `ServiceSchedule` whose vessel schedules all
carry zero transport calls. -/
theorem maersk_ptp_no_allempty_schedule :
    ∀ (routes : List MaerskPTP.PtpRoute) (s : ServiceSchedule),
      s ∈ MaerskPTP.mapPointToPointToDCSA routes →
      ∃ vs ∈ s.vesselSchedules, ∃ l, vs.transportCalls = some l ∧ l ≠ [] := by
  intro routes s hs
  unfold MaerskPTP.mapPointToPointToDCSA at hs
  by_cases hlen : (routes.length == 0) = true
  · rw [if_pos hlen] at hs
    simp at hs
  · rw [if_neg hlen] at hs
    have good : StGood (routes.foldl MaerskPTP.processRoute []) :=
      foldl_processRoute_good routes [] (by intro kv hkv; simp at hkv)
    rcases List.mem_filter.mp hs with ⟨hmem, hpos⟩
    rcases List.mem_map.mp hmem with ⟨kv, hkv, rfl⟩
    cases hvss : kv.2.schedule.vesselSchedules with
    | nil =>
      rw [hvss] at hpos
      simp at hpos
    | cons vs rest =>
      obtain ⟨l, hl, hne⟩ := good kv hkv vs (by rw [hvss]; exact List.mem_cons_self _ _)
      exact ⟨vs, List.mem_cons_self _ _, l, hl, hne⟩

/-- Witness for C2: on a one-leg VESSEL route, the mapped output's single
service schedule has a vessel schedule with a non-empty transport-call
list. -/
theorem maersk_ptp_no_allempty_schedule_witness :
    ∃ s, s ∈ MaerskPTP.mapPointToPointToDCSA [maerskRouteEx] ∧
      ∃ vs ∈ s.vesselSchedules, ∃ l, vs.transportCalls = some l ∧ l ≠ [] := by
  obtain ⟨s, hs⟩ : ∃ s, MaerskPTP.mapPointToPointToDCSA [maerskRouteEx] = [s] :=
    ⟨_, rfl⟩
  exact ⟨s, by rw [hs]; exact List.mem_singleton.mpr rfl,
    maersk_ptp_no_allempty_schedule [maerskRouteEx] s
      (by rw [hs]; exact List.mem_singleton.mpr rfl)⟩

end ScheduleTracking
